import Mathlib

/-!
Verification of the packaging descriptor `setup.py` of the
`async-aws-ip-rotator` repository, via a shallow embedding.

The descriptor reads the file `README.md` that sits next to it and then
performs a single `setup(...)` call registering the package metadata.
We model the filesystem as an association list from paths to file
contents, evaluation of the script as a function producing `Option`
(`none` when the read of `README.md` fails), and the build tool's
registry as a list of registered distributions to which a successful
evaluation appends exactly one entry.

String scanning (requirement strings such as `"httpx>=0.24.0"`, the
`">=3.7"` runtime requirement, classifier strings) is done with
structural recursion over character lists so that every definition
evaluates inside the kernel.
-/

/-- A filesystem state: an association list from path to file contents. -/
abbrev FS := List (String × String)

/-- Reading a file: the contents at the first matching path, if any.
Models `(location / "README.md").read_text()`, which raises when the
file does not exist (here: `none`). -/
def readFile (fs : FS) (path : String) : Option String :=
  (fs.find? (fun e => e.1 == path)).map (fun e => e.2)

/-- Drop the first list from the front of the second; `none` when the
second does not start with the first. -/
def dropLeading? : List Char → List Char → Option (List Char)
  | [], s => some s
  | _ :: _, [] => none
  | p :: ps, c :: cs => if p = c then dropLeading? ps cs else none

/-- Strip a leading string, `none` when `s` does not start with it. -/
def stripLeading? (pre s : String) : Option String :=
  (dropLeading? pre.data s.data).map String.mk

/-- Strip a trailing string, `none` when `s` does not end with it. -/
def stripTrailing? (suf s : String) : Option String :=
  (dropLeading? suf.data.reverse s.data.reverse).map
    (fun cs => String.mk cs.reverse)

/-- Split a character list at the first occurrence of the two-character
operator `>=`: the part before it, and (when present) the part after. -/
def splitAtGe : List Char → List Char × Option (List Char)
  | [] => ([], none)
  | '>' :: '=' :: rest => ([], some rest)
  | c :: rest =>
      let r := splitAtGe rest
      (c :: r.1, r.2)

/-- Split a character list on the dot character. -/
def splitDots : List Char → List (List Char)
  | [] => [[]]
  | c :: rest =>
      if c = '.' then [] :: splitDots rest
      else
        match splitDots rest with
        | [] => [[c]]
        | g :: gs => (c :: g) :: gs

/-- The value of a decimal digit character, if it is one. -/
def digitVal? (c : Char) : Option Nat :=
  if c.isDigit then some (c.toNat - 48) else none

/-- Accumulate decimal digits into a number; `none` on a non-digit. -/
def natOfDigitsAux : Nat → List Char → Option Nat
  | acc, [] => some acc
  | acc, c :: cs =>
      match digitVal? c with
      | some d => natOfDigitsAux (acc * 10 + d) cs
      | none => none

/-- A nonempty all-digit character list as a number. -/
def natOfDigits : List Char → Option Nat
  | [] => none
  | cs => natOfDigitsAux 0 cs

/-- Each dot-separated group as a number, all groups numeric. -/
def parseVerGroups : List (List Char) → Option (List Nat)
  | [] => some []
  | g :: gs =>
      match natOfDigits g, parseVerGroups gs with
      | some n, some t => some (n :: t)
      | _, _ => none

/-- A dotted version string (as characters) as its numeric components. -/
def parseVersion? (cs : List Char) : Option (List Nat) :=
  parseVerGroups (splitDots cs)

/-- A dependency entry such as `"httpx>=0.24.0"` as the package name and
the declared minimum version, when a `>=` constraint is present. -/
def parseRequirement (s : String) : String × Option (List Nat) :=
  match splitAtGe s.data with
  | (n, none) => (String.mk n, none)
  | (n, some v) => (String.mk n, parseVersion? v)

/-- A `major.minor` version (as characters) as a pair of numbers;
`none` unless there are exactly two numeric components. -/
def parsePair? (cs : List Char) : Option (Nat × Nat) :=
  match splitDots cs with
  | [a, b] =>
      match natOfDigits a, natOfDigits b with
      | some x, some y => some (x, y)
      | _, _ => none
  | _ => none

/-- A runtime requirement of the form `">=major.minor"`. -/
def parseGe (req : String) : Option (Nat × Nat) :=
  match splitAtGe req.data with
  | ([], some v) => parsePair? v
  | _ => none

/-- Whether a runtime version `(major, minor)` satisfies a requirement
string: a `">=a.b"` requirement accepts exactly the versions that are
lexicographically at or above `(a, b)`. -/
def pySatisfies (req : String) (v : Nat × Nat) : Bool :=
  match parseGe req with
  | some (a, b) => decide (a < v.1 ∨ (a = v.1 ∧ b ≤ v.2))
  | none => false

/-- The `install_requires` list of setup.py, verbatim. -/
def install_requires : List String :=
  ["httpx>=0.24.0", "aioboto3>=11.0.0", "boto3", "botocore"]

/-- The `python_requires` argument of setup.py, verbatim. -/
def python_requires : String := ">=3.7"

/-- The `classifiers` list of setup.py, verbatim. -/
def classifiers : List String :=
  ["Programming Language :: Python :: 3",
   "Programming Language :: Python :: 3.7",
   "Programming Language :: Python :: 3.8",
   "Programming Language :: Python :: 3.9",
   "Programming Language :: Python :: 3.10",
   "Operating System :: OS Independent",
   "Framework :: AsyncIO",
   "Topic :: Internet :: WWW/HTTP"]

/-- The core metadata fields passed to `setup(...)`. -/
structure Metadata where
  name : String
  version : String
  description : String
  long_description : String
  long_description_content_type : String
  author : String
  author_email : String
  install_requires : List String
  python_requires : String
  classifiers : List String
deriving DecidableEq

/-- The metadata registered by the `setup(...)` call of setup.py, as a
function of the `README.md` contents bound to `long_description`. -/
def metadataOf (readme : String) : Metadata :=
  { name := "async-aws-ip-rotator"
    version := "1.0.0"
    description := "Async IP rotation using AWS API Gateway with httpx support"
    long_description := readme
    long_description_content_type := "text/markdown"
    author := "Zahid Hussain"
    author_email := "zahidhussain.a2l@gmail.com"
    install_requires := install_requires
    python_requires := python_requires
    classifiers := classifiers }

/-- Modelled from the spec and the `setuptools.find_packages()` call of
setup.py (the function itself is library code, not in this repository):
the packages found on the filesystem are the directories containing an
`__init__.py`, with path separators turned into dots. -/
def findPackages (fs : FS) : List String :=
  fs.filterMap (fun e =>
    (stripTrailing? "/__init__.py" e.1).map
      (fun d => String.mk (d.data.map (fun c => if c = '/' then '.' else c))))

/-- What one `setup(...)` call registers: the core metadata together
with the build configuration arguments `packages` and
`include_package_data`. -/
structure Distribution where
  metadata : Metadata
  packages : List String
  include_package_data : Bool
deriving DecidableEq

/-- Evaluating setup.py against a filesystem: read `README.md` next to
the script (failing if absent, before `setup` is reached), then build
the distribution passed to the single `setup(...)` call. -/
def evalSetup (fs : FS) : Option Distribution :=
  (readFile fs "README.md").map (fun readme =>
    { metadata := metadataOf readme
      packages := findPackages fs
      include_package_data := true })

/-- The effect of evaluating setup.py on the build tool's registry:
a successful evaluation appends the one registered distribution, a
failed one leaves the registry unchanged. -/
def runSetup (fs : FS) (registry : List Distribution) : List Distribution :=
  match evalSetup fs with
  | some d => registry ++ [d]
  | none => registry

/-- The runtime minor version lines declared by a classifier list: the
`major.minor` pairs of classifiers of the form
`"Programming Language :: Python :: major.minor"` (the bare
`":: Python :: 3"` major line carries no minor version and is not one). -/
def pyMinorLines (cs : List String) : List (Nat × Nat) :=
  cs.filterMap (fun c =>
    (stripLeading? "Programming Language :: Python :: " c).bind
      (fun r => parsePair? r.data))

/-- A concrete filesystem holding only a `README.md`. -/
def demoFS : FS := [("README.md", "demo readme")]

/-- The distribution that evaluating setup.py on `demoFS` registers. -/
def demoDist : Distribution :=
  { metadata := metadataOf "demo readme"
    packages := []
    include_package_data := true }

/-- C1: every distribution registered by evaluating the descriptor has
name field `"async-aws-ip-rotator"` and version field `"1.0.0"`. -/
theorem c1_name_version (fs : FS) (d : Distribution)
    (h : evalSetup fs = some d) :
    d.metadata.name = "async-aws-ip-rotator" ∧ d.metadata.version = "1.0.0" := by
  unfold evalSetup at h
  cases hr : readFile fs "README.md" with
  | none => rw [hr] at h; simp at h
  | some r =>
      rw [hr] at h
      simp only [Option.map_some'] at h
      injection h with h
      subst h
      exact ⟨rfl, rfl⟩

/-- C1 witness: on a concrete filesystem holding a `README.md`,
evaluation registers that name and version. -/
theorem c1_witness :
    demoDist.metadata.name = "async-aws-ip-rotator" ∧
      demoDist.metadata.version = "1.0.0" :=
  c1_name_version demoFS demoDist (by decide)

/-- C2: the registered dependency list has exactly four entries: httpx
with minimum version 0.24.0, aioboto3 with minimum version 11.0.0, and
boto3 and botocore with no version constraint. -/
theorem c2_dependency_list :
    install_requires.map parseRequirement =
      [("httpx", some [0, 24, 0]), ("aioboto3", some [11, 0, 0]),
       ("boto3", none), ("botocore", none)] := by decide

/-- C3: the classifiers declare exactly the four runtime minor version
lines 3.7, 3.8, 3.9 and 3.10, and the `">=3.7"` runtime requirement
rejects every version earlier than 3.7. -/
theorem c3_runtime_versions :
    pyMinorLines classifiers = [(3, 7), (3, 8), (3, 9), (3, 10)] ∧
    ∀ maj minor : Nat, maj < 3 ∨ (maj = 3 ∧ minor < 7) →
      pySatisfies python_requires (maj, minor) = false := by
  refine ⟨by decide, ?_⟩
  intro maj minor h
  have e : pySatisfies python_requires (maj, minor)
      = decide (3 < maj ∨ (3 = maj ∧ 7 ≤ minor)) := rfl
  rw [e]
  exact decide_eq_false (by omega)

/-- C3 witness: version 3.6 is rejected by the runtime requirement. -/
theorem c3_witness : pySatisfies python_requires (3, 6) = false :=
  c3_runtime_versions.2 3 6 (Or.inr ⟨rfl, by decide⟩)

/-- C4 counterexample: on a filesystem without `README.md`, evaluating
the descriptor fails, so evaluation does have an error condition,
contrary to the claim that it never raises an error. -/
theorem c4_counterexample : evalSetup [] = none := by decide

/-- C4 amended: evaluation of the descriptor succeeds exactly when the
file `README.md` next to it exists; the read of `README.md` is its one
error condition. -/
theorem c4_amended (fs : FS) :
    (evalSetup fs).isSome = (readFile fs "README.md").isSome := by
  unfold evalSetup
  cases readFile fs "README.md" <;> rfl

/-- C5 counterexample: the result of evaluating the descriptor against
an empty registry differs between two environments that differ only in
the filesystem, so evaluation reads a part of the environment other
than the build tool's metadata registry, contrary to the claim. -/
theorem c5_counterexample :
    runSetup [("README.md", "a")] [] ≠ runSetup [("README.md", "b")] [] := by
  decide

/-- C5 amended: evaluation performs exactly one registration — it
appends one distribution to the registry on success, leaves the
registry unchanged on failure, and never otherwise changes it — but it
does read the filesystem: the contents of `README.md` and the package
directory layout are the only parts of the environment outside the
registry that its result depends on. -/
theorem c5_amended :
    (∀ fs reg, (readFile fs "README.md").isSome = true →
       ∃ d, runSetup fs reg = reg ++ [d]) ∧
    (∀ fs reg, readFile fs "README.md" = none → runSetup fs reg = reg) ∧
    (∀ fs fs', readFile fs "README.md" = readFile fs' "README.md" →
       findPackages fs = findPackages fs' → evalSetup fs = evalSetup fs') := by
  refine ⟨?_, ?_, ?_⟩
  · intro fs reg h
    unfold runSetup evalSetup
    cases hr : readFile fs "README.md" with
    | none => rw [hr] at h; simp at h
    | some r => exact ⟨_, rfl⟩
  · intro fs reg h
    unfold runSetup evalSetup
    rw [h]
    rfl
  · intro fs fs' h1 h2
    unfold evalSetup
    rw [h1, h2]

/-- C5 witness: on a concrete filesystem with a `README.md`, exactly
one distribution is appended to the empty registry. -/
theorem c5_witness : ∃ d, runSetup demoFS [] = [] ++ [d] :=
  c5_amended.1 demoFS [] (by decide)

/-- C6 counterexample: no classifier of the descriptor is a license
tag, contrary to the claim that the classifier set includes one. -/
theorem c6_counterexample :
    classifiers.any (fun c => (stripLeading? "License" c).isSome) = false := by
  decide

/-- C6 amended: the declared metadata includes a package name, a
version string, a human-readable description, author contact
information and classification tags, but the classifier set contains
no license tag. -/
theorem c6_metadata (readme : String) :
    (metadataOf readme).name = "async-aws-ip-rotator" ∧
    (metadataOf readme).version = "1.0.0" ∧
    (metadataOf readme).description ≠ "" ∧
    (metadataOf readme).author ≠ "" ∧
    (metadataOf readme).author_email ≠ "" ∧
    (metadataOf readme).classifiers ≠ [] ∧
    ((metadataOf readme).classifiers.any
      (fun c => (stripLeading? "License" c).isSome)) = false := by
  refine ⟨rfl, rfl, ?_, ?_, ?_, ?_, ?_⟩
  · show ("Async IP rotation using AWS API Gateway with httpx support" : String) ≠ ""
    decide
  · show ("Zahid Hussain" : String) ≠ ""
    decide
  · show ("zahidhussain.a2l@gmail.com" : String) ≠ ""
    decide
  · show classifiers ≠ []
    decide
  · show (classifiers.any (fun c => (stripLeading? "License" c).isSome)) = false
    decide

/-- C7: the registered metadata fields depend on no part of the
environment beyond the contents of `README.md`: two evaluations on
filesystems agreeing on `README.md` register identical metadata. -/
theorem c7_noninterference (fs fs' : FS)
    (h : readFile fs "README.md" = readFile fs' "README.md") :
    (evalSetup fs).map Distribution.metadata
      = (evalSetup fs').map Distribution.metadata := by
  unfold evalSetup
  rw [h]
  cases readFile fs' "README.md" <;> rfl

/-- C7 witness: two concrete filesystems with the same `README.md` but
different directory layouts register identical metadata. -/
theorem c7_witness :
    (evalSetup demoFS).map Distribution.metadata
      = (evalSetup [("README.md", "demo readme"), ("pkg/__init__.py", "x")]).map
          Distribution.metadata :=
  c7_noninterference demoFS
    [("README.md", "demo readme"), ("pkg/__init__.py", "x")] (by decide)

/-- C8: whenever evaluation succeeds, the registered long_description
equals the contents of `README.md` character for character, and its
declared content type is `"text/markdown"`. -/
theorem c8_long_description (fs : FS) (readme : String) (d : Distribution)
    (h1 : readFile fs "README.md" = some readme)
    (h2 : evalSetup fs = some d) :
    d.metadata.long_description = readme ∧
      d.metadata.long_description_content_type = "text/markdown" := by
  unfold evalSetup at h2
  rw [h1] at h2
  simp only [Option.map_some'] at h2
  injection h2 with h2
  subst h2
  exact ⟨rfl, rfl⟩

/-- C8 witness: on a concrete filesystem, the registered
long_description is the `README.md` contents, with markdown type. -/
theorem c8_witness :
    demoDist.metadata.long_description = "demo readme" ∧
      demoDist.metadata.long_description_content_type = "text/markdown" :=
  c8_long_description demoFS "demo readme" demoDist (by decide) (by decide)

/-- C9: when `README.md` is absent, evaluation fails before the
registration call and the registry is left unchanged. -/
theorem c9_missing_readme (fs : FS) (reg : List Distribution)
    (h : readFile fs "README.md" = none) :
    evalSetup fs = none ∧ runSetup fs reg = reg := by
  have he : evalSetup fs = none := by
    unfold evalSetup
    rw [h]
    rfl
  refine ⟨he, ?_⟩
  unfold runSetup
  rw [he]

/-- C9 witness: on the empty filesystem, evaluation fails and an empty
registry stays empty. -/
theorem c9_witness : evalSetup [] = none ∧ runSetup [] [] = [] :=
  c9_missing_readme [] [] (by decide)

/-- C10: the runtime requirement is exactly `">=3.7"` and has no upper
bound: every version lexicographically at or above 3.7 satisfies it. -/
theorem c10_no_upper_bound :
    python_requires = ">=3.7" ∧
    ∀ maj minor : Nat, 3 < maj ∨ (maj = 3 ∧ 7 ≤ minor) →
      pySatisfies python_requires (maj, minor) = true := by
  refine ⟨rfl, ?_⟩
  intro maj minor h
  have e : pySatisfies python_requires (maj, minor)
      = decide (3 < maj ∨ (3 = maj ∧ 7 ≤ minor)) := rfl
  rw [e]
  exact decide_eq_true (by omega)

/-- C10 witness: version 3.12, beyond the four classifier lines,
satisfies the runtime requirement. -/
theorem c10_witness : pySatisfies python_requires (3, 12) = true :=
  c10_no_upper_bound.2 3 12 (Or.inr ⟨rfl, by decide⟩)
